import Mathlib

/-
Verification of `optimizely_config.py` (OptimizelyConfig projection service).

This file gives a shallow embedding of the module's data model and operations:

* Python dicts are modelled as insertion-ordered association lists (`Dict`);
  `dictInsert` updates an existing key in place, matching dict semantics.
* The fallible operations (`_get_variables_map`, `_get_variations_map`,
  `_get_experiments_maps`, `_get_delivery_rules`, `_get_features_map`,
  `get_config`) are modelled in `Except String`; `.error "KeyError"` models an
  uncaught Python `KeyError` raised by `d[k]` on a missing key.
* The audience condition trees handed to `_get_experiment_audiences` are
  mutually inductive (`CondItem` / `CondList`), mirroring Python lists whose
  elements are strings or nested lists.
* `upperString` models `str.upper()` on the ASCII operator tokens.
* `deepcopy` is the identity under the value semantics of the embedding;
  the in-place mutation `variables_map[k].value = v` becomes a functional
  update of the single entry (`dictSetValue`).
-/

/-- Python dict modelled as an insertion-ordered association list keyed by
strings. -/
abbrev Dict (α : Type) := List (String × α)

/-- Dictionary lookup, `d.get(k)` / `d[k]`. -/
def dictGet {α : Type} : Dict α → String → Option α
  | [], _ => none
  | (k1, v) :: rest, k => if k1 = k then some v else dictGet rest k

/-- Dictionary store `d[k] = v`: update in place when the key exists,
append otherwise. -/
def dictInsert {α : Type} : Dict α → String → α → Dict α
  | [], k, v => [(k, v)]
  | (k1, v1) :: rest, k, v =>
      if k1 = k then (k1, v) :: rest else (k1, v1) :: dictInsert rest k v

/-- The keys of a dict, in order. -/
def dictKeys {α : Type} (d : Dict α) : List String := d.map Prod.fst

/- ----------------------------------------------------------------
Input records (the parsed datafile structures read by the service).
---------------------------------------------------------------- -/

/-- A variable declaration on a feature flag (id, key, type, defaultValue). -/
structure VariableRec where
  id : String
  key : String
  type : String
  defaultValue : String
deriving Repr, DecidableEq

/-- A variable override stored on a variation (id, value). -/
structure VariableOverride where
  id : String
  value : String
deriving Repr, DecidableEq

/-- A variation record: `featureEnabled` is tri-state
(`variation.get('featureEnabled')`). -/
structure VariationRec where
  id : String
  key : String
  featureEnabled : Option Bool
  vars : List VariableOverride
deriving Repr, DecidableEq

mutual
/-- Audience condition tree elements: a Python list whose elements are
strings (operators or audience ids) or nested lists. -/
inductive CondItem where
  | str : String → CondItem
  | seq : CondList → CondItem
inductive CondList where
  | nil : CondList
  | cons : CondItem → CondList → CondList
end

/-- Convenience conversion from a Lean list of items to a `CondList`. -/
def condList : List CondItem → CondList
  | [] => CondList.nil
  | x :: xs => CondList.cons x (condList xs)

/-- An experiment record (top-level, group or rollout experiment);
`audienceConditions = none` models the `'audienceConditions'` key being
absent (or `None`). -/
structure ExperimentRec where
  id : String
  key : String
  audienceConditions : Option CondList
  variations : List VariationRec

/-- A mutually-exclusive group: its member experiments. -/
structure GroupRec where
  experiments : List ExperimentRec

/-- A rollout record: its ordered experiments. -/
structure RolloutRec where
  experiments : List ExperimentRec

/-- A feature flag record; `rolloutId = none` models the `'rolloutId'` key
being absent. -/
structure FeatureFlagRec where
  id : String
  key : String
  experimentIds : List String
  rolloutId : Option String
  vars : List VariableRec
deriving Repr, DecidableEq

/-- A legacy or typed audience record. -/
structure AudienceRec where
  id : String
  name : String
  conditions : String
deriving Repr, DecidableEq

/-- An attribute record. -/
structure AttributeRec where
  id : String
  key : String
deriving Repr, DecidableEq

/-- An event record. -/
structure EventRec where
  id : String
  key : String
  experimentIds : List String
deriving Repr, DecidableEq

/-- The parsed project configuration handed to the service by the upstream
parser (`project_config.ProjectConfig`). -/
structure ProjectConfig where
  datafile : String
  experiments : List ExperimentRec
  feature_flags : List FeatureFlagRec
  groups : List GroupRec
  revision : String
  sdk_key : Option String
  environment_key : Option String
  attributes : List AttributeRec
  events : List EventRec
  audiences : List AudienceRec
  audience_id_map : Dict AudienceRec
  rollout_id_map : Dict RolloutRec
  typed_audiences : List AudienceRec

/- ----------------------------------------------------------------
Output view records (the Optimizely* classes of the module).
---------------------------------------------------------------- -/

/-- `OptimizelyVariable(id, key, variable_type, value)`. -/
structure OptimizelyVariable where
  id : String
  key : String
  type : String
  value : String
deriving Repr, DecidableEq

/-- `OptimizelyVariation(id, key, feature_enabled, variables_map)`. -/
structure OptimizelyVariation where
  id : String
  key : String
  feature_enabled : Option Bool
  variables_map : Dict OptimizelyVariable
deriving Repr, DecidableEq

/-- `OptimizelyExperiment(id, key, variations_map, audiences)`. -/
structure OptimizelyExperiment where
  id : String
  key : String
  audiences : String
  variations_map : Dict OptimizelyVariation
deriving Repr, DecidableEq

/-- `OptimizelyFeature(id, key, experiments_map, variables_map,
experiment_rules, delivery_rules)`. -/
structure OptimizelyFeature where
  id : String
  key : String
  experimentRules : List OptimizelyExperiment
  deliveryRules : List OptimizelyExperiment
  experiments_map : Dict OptimizelyExperiment
  variables_map : Dict OptimizelyVariable
deriving Repr, DecidableEq

/-- `OptimizelyAudience(id, name, conditions)`. -/
structure OptimizelyAudience where
  id : String
  name : String
  conditions : String
deriving Repr, DecidableEq

/-- `OptimizelyAttribute(id, key)`. -/
structure OptimizelyAttribute where
  id : String
  key : String
deriving Repr, DecidableEq

/-- `OptimizelyEvent(id, key, experiment_ids)`. -/
structure OptimizelyEvent where
  id : String
  key : String
  experimentIds : List String
deriving Repr, DecidableEq

/-- Python `x or default` for an optional string argument: `None` and the
empty string are falsy. -/
def pyOrStr (o : Option String) : String :=
  match o with
  | none => ""
  | some s => if s = "" then "" else s

/-- Python `x or []` for an optional list argument: `None` and the empty
list are falsy. -/
def pyOrList {α : Type} (o : Option (List α)) : List α :=
  match o with
  | none => []
  | some l => if l.isEmpty then [] else l

/-- The full `OptimizelyConfig` view object, after the normalization
performed by `OptimizelyConfig.__init__`. -/
structure OptimizelyConfig where
  revision : String
  experiments_map : Dict OptimizelyExperiment
  features_map : Dict OptimizelyFeature
  datafile : Option String
  sdk_key : String
  environment_key : String
  attributes : List OptimizelyAttribute
  events : List OptimizelyEvent
  audiences : List OptimizelyAudience
deriving Repr, DecidableEq

/-- `OptimizelyConfig.__init__`: stores the fields, normalizing the optional
arguments with `or` (`sdk_key or ''`, `attributes or []`, ...). -/
def OptimizelyConfig.create (revision : String)
    (experiments_map : Dict OptimizelyExperiment)
    (features_map : Dict OptimizelyFeature)
    (datafile : Option String) (sdk_key : Option String)
    (environment_key : Option String)
    (attributes : Option (List OptimizelyAttribute))
    (events : Option (List OptimizelyEvent))
    (audiences : Option (List OptimizelyAudience)) : OptimizelyConfig :=
  { revision := revision
    experiments_map := experiments_map
    features_map := features_map
    datafile := datafile
    sdk_key := pyOrStr sdk_key
    environment_key := pyOrStr environment_key
    attributes := pyOrList attributes
    events := pyOrList events
    audiences := pyOrList audiences }

/- ----------------------------------------------------------------
The audience condition renderer (`_get_experiment_audiences`).
---------------------------------------------------------------- -/

/-- Models `str.upper()` (character-wise ASCII upper-casing; only ever
applied to the operator tokens `"and"`, `"or"`, `"not"`). -/
def upperString (s : String) : String :=
  String.mk (s.data.map Char.toUpper)

/-- The loop body of `_get_experiment_audiences`: walks the item sequence
left to right carrying the accumulated `result_audience` and the pending
`cond` operator string.  A nested sequence is rendered recursively and
wrapped in parentheses; an operator token sets `cond`; any other string is
resolved against the audience-id map, falling back to the raw id text. -/
def renderItems (m : Dict AudienceRec) : CondList → String → String → String
  | CondList.nil, result, _ => result
  | CondList.cons (CondItem.seq items) rest, result, cond =>
      let sub := "(" ++ renderItems m items "" "" ++ ")"
      if result ≠ "" ∨ cond = "NOT" then
        let result1 := if result ≠ "" then result ++ " " else result
        let cond1 := if cond ≠ "" then cond else "OR"
        renderItems m rest (result1 ++ cond1 ++ " " ++ sub) cond1
      else
        renderItems m rest (result ++ sub) cond
  | CondList.cons (CondItem.str s) rest, result, cond =>
      if s = "and" ∨ s = "or" ∨ s = "not" then
        renderItems m rest result (upperString s)
      else
        let name := match dictGet m s with
          | some a => a.name
          | none => s
        if result ≠ "" ∨ cond = "NOT" then
          let result1 := if result ≠ "" then result ++ " " else result
          let cond1 := if cond ≠ "" then cond else "OR"
          renderItems m rest (result1 ++ cond1 ++ " \"" ++ name ++ "\"") cond1
        else
          renderItems m rest ("\"" ++ name ++ "\"") cond

/-- `_get_experiment_audiences(experiment_audience_condition, map)`:
returns `""` for an absent (`None`) or empty condition sequence, otherwise
renders the sequence. -/
def get_experiment_audiences (c : Option CondList) (m : Dict AudienceRec) : String :=
  match c with
  | none => ""
  | some CondList.nil => ""
  | some items => renderItems m items "" ""

/- ----------------------------------------------------------------
The service state after `__init__` / `_create_lookup_maps`.
---------------------------------------------------------------- -/

/-- The `variables_key_map` built per feature by `_create_lookup_maps`. -/
def buildVariablesKeyMap (vs : List VariableRec) : Dict OptimizelyVariable :=
  vs.foldl (fun d v =>
    dictInsert d v.key ⟨v.id, v.key, v.type, v.defaultValue⟩) []

/-- The `variables_id_map` built per feature by `_create_lookup_maps`. -/
def buildVariablesIdMap (vs : List VariableRec) : Dict OptimizelyVariable :=
  vs.foldl (fun d v =>
    dictInsert d v.id ⟨v.id, v.key, v.type, v.defaultValue⟩) []

/-- The `exp_id_to_feature_map` built by `_create_lookup_maps`. -/
def buildExpIdToFeatureMap (features : List FeatureFlagRec) : Dict FeatureFlagRec :=
  features.foldl (fun d f =>
    f.experimentIds.foldl (fun d eid => dictInsert d eid f) d) []

/-- The `feature_key_variable_key_to_variable_map` of `_create_lookup_maps`. -/
def buildFeatureKeyToKeyMap (features : List FeatureFlagRec) :
    Dict (Dict OptimizelyVariable) :=
  features.foldl (fun d f => dictInsert d f.key (buildVariablesKeyMap f.vars)) []

/-- The `feature_key_variable_id_to_variable_map` of `_create_lookup_maps`. -/
def buildFeatureKeyToIdMap (features : List FeatureFlagRec) :
    Dict (Dict OptimizelyVariable) :=
  features.foldl (fun d f => dictInsert d f.key (buildVariablesIdMap f.vars)) []

/-- The state of a valid `OptimizelyConfigService` after `__init__` copied
the project-config fields and `_create_lookup_maps` built the indices. -/
structure ServiceData where
  datafile : String
  experiments : List ExperimentRec
  feature_flags : List FeatureFlagRec
  groups : List GroupRec
  revision : String
  sdk_key : Option String
  environment_key : Option String
  attributes : List AttributeRec
  events : List EventRec
  audiences : List AudienceRec
  audience_id_map : Dict AudienceRec
  roll_out_id_map : Dict RolloutRec
  typed_audiences : List AudienceRec
  exp_id_to_feature_map : Dict FeatureFlagRec
  feature_key_variable_key_to_variable_map : Dict (Dict OptimizelyVariable)
  feature_key_variable_id_to_variable_map : Dict (Dict OptimizelyVariable)

/-- `OptimizelyConfigService.__init__` on a genuine `ProjectConfig`. -/
def createServiceData (pc : ProjectConfig) : ServiceData :=
  { datafile := pc.datafile
    experiments := pc.experiments
    feature_flags := pc.feature_flags
    groups := pc.groups
    revision := pc.revision
    sdk_key := pc.sdk_key
    environment_key := pc.environment_key
    attributes := pc.attributes
    events := pc.events
    audiences := pc.audiences
    audience_id_map := pc.audience_id_map
    roll_out_id_map := pc.rollout_id_map
    typed_audiences := pc.typed_audiences
    exp_id_to_feature_map := buildExpIdToFeatureMap pc.feature_flags
    feature_key_variable_key_to_variable_map := buildFeatureKeyToKeyMap pc.feature_flags
    feature_key_variable_id_to_variable_map := buildFeatureKeyToIdMap pc.feature_flags }

/- ----------------------------------------------------------------
Variable / variation resolution.
---------------------------------------------------------------- -/

/-- Models `variables_map[k].value = v`: updates the `value` of the entry
stored under `k`, leaving every other entry unchanged. -/
def dictSetValue (d : Dict OptimizelyVariable) (k : String) (v : String) :
    Dict OptimizelyVariable :=
  d.map (fun p => if p.1 = k then (p.1, { p.2 with value := v }) else p)

/-- The override loop of `_get_variables_map`: for each override entry,
`feature_key_variable_id_to_variable_map[featureKey][override.id]` is
looked up with raising indexing (a miss is an uncaught `KeyError`), then
the copied map's entry at the declared key gets the override value. -/
def applyOverridesAux (svc : ServiceData) (featureKey : String) :
    List VariableOverride → Dict OptimizelyVariable →
    Except String (Dict OptimizelyVariable)
  | [], vm => Except.ok vm
  | ov :: rest, vm =>
      match dictGet svc.feature_key_variable_id_to_variable_map featureKey with
      | none => Except.error "KeyError"
      | some idm =>
          match dictGet idm ov.id with
          | none => Except.error "KeyError"
          | some fv =>
              match dictGet vm fv.key with
              | none => Except.error "KeyError"
              | some _ => applyOverridesAux svc featureKey rest (dictSetValue vm fv.key ov.value)

/-- `_get_variables_map(experiment, variation)`: an experiment with no
owning feature yields the empty map; otherwise the feature's key-indexed
registry is deep-copied and, only when `featureEnabled` is truthy, the
variation's overrides are applied. -/
def get_variables_map (svc : ServiceData) (experiment : ExperimentRec)
    (variation : VariationRec) : Except String (Dict OptimizelyVariable) :=
  match dictGet svc.exp_id_to_feature_map experiment.id with
  | none => Except.ok []
  | some feature_flag =>
      match dictGet svc.feature_key_variable_key_to_variable_map feature_flag.key with
      | none => Except.error "KeyError"
      | some variables_map =>
          if variation.featureEnabled = some true then
            applyOverridesAux svc feature_flag.key variation.vars variables_map
          else
            Except.ok variables_map

/-- The loop of `_get_variations_map`. -/
def variationsMapAux (svc : ServiceData) (experiment : ExperimentRec) :
    List VariationRec → Dict OptimizelyVariation →
    Except String (Dict OptimizelyVariation)
  | [], vm => Except.ok vm
  | v :: rest, vm =>
      match get_variables_map svc experiment v with
      | Except.error e => Except.error e
      | Except.ok variables_map =>
          variationsMapAux svc experiment rest
            (dictInsert vm v.key ⟨v.id, v.key, v.featureEnabled, variables_map⟩)

/-- `_get_variations_map(experiment)`. -/
def get_variations_map (svc : ServiceData) (experiment : ExperimentRec) :
    Except String (Dict OptimizelyVariation) :=
  variationsMapAux svc experiment experiment.variations []

/- ----------------------------------------------------------------
Experiment and feature projection.
---------------------------------------------------------------- -/

/-- `_get_all_experiments()`: the config's own experiments followed by each
group's experiments, in order. -/
def get_all_experiments (svc : ServiceData) : List ExperimentRec :=
  svc.groups.foldl (fun exps group => exps ++ group.experiments) svc.experiments

/-- One iteration of the `_get_experiments_maps` loop: render the audience
string (empty when the `'audienceConditions'` key is absent) and build the
`OptimizelyExperiment` view. -/
def buildOptlyExperiment (svc : ServiceData) (exp : ExperimentRec) :
    Except String OptimizelyExperiment :=
  let audiences := match exp.audienceConditions with
    | none => ""
    | some c => get_experiment_audiences (some c) svc.audience_id_map
  match get_variations_map svc exp with
  | Except.error e => Except.error e
  | Except.ok vm => Except.ok ⟨exp.id, exp.key, audiences, vm⟩

/-- The loop of `_get_experiments_maps`, carrying both parallel maps. -/
def experimentsMapsAux (svc : ServiceData) :
    List ExperimentRec → Dict OptimizelyExperiment → Dict OptimizelyExperiment →
    Except String (Dict OptimizelyExperiment × Dict OptimizelyExperiment)
  | [], km, im => Except.ok (km, im)
  | exp :: rest, km, im =>
      match buildOptlyExperiment svc exp with
      | Except.error e => Except.error e
      | Except.ok o =>
          experimentsMapsAux svc rest (dictInsert km exp.key o) (dictInsert im exp.id o)

/-- `_get_experiments_maps()`: one pass over all experiments populating the
key-indexed and id-indexed maps. -/
def get_experiments_maps (svc : ServiceData) :
    Except String (Dict OptimizelyExperiment × Dict OptimizelyExperiment) :=
  experimentsMapsAux svc (get_all_experiments svc) [] []

/-- The loop of `_get_delivery_rules`, parametrized (like the Python
function) by the audience-id map used for rendering. -/
def deliveryRulesAux (svc : ServiceData) (audience_id_map : Dict AudienceRec) :
    List ExperimentRec → List OptimizelyExperiment →
    Except String (List OptimizelyExperiment)
  | [], acc => Except.ok acc
  | exp :: rest, acc =>
      let audiences := match exp.audienceConditions with
        | none => ""
        | some c => get_experiment_audiences (some c) audience_id_map
      match get_variations_map svc exp with
      | Except.error e => Except.error e
      | Except.ok vm =>
          deliveryRulesAux svc audience_id_map rest (acc ++ [⟨exp.id, exp.key, audiences, vm⟩])

/-- `_get_delivery_rules(rollout_id, roll_out_id_map, audience_id_map)`:
`roll_out_id_map[rollout_id]` is raising indexing. -/
def get_delivery_rules (svc : ServiceData) (rollout_id : String)
    (roll_out_id_map : Dict RolloutRec) (audience_id_map : Dict AudienceRec) :
    Except String (List OptimizelyExperiment) :=
  match dictGet roll_out_id_map rollout_id with
  | none => Except.error "KeyError"
  | some rollout => deliveryRulesAux svc audience_id_map rollout.experiments []

/-- The experiment-ids loop of `_get_features_map`: each declared experiment
id is looked up in the id-indexed map built by `_get_experiments_maps`
(raising indexing), appended to `experiment_rules` and aliased into
`exp_map` under its key. -/
def featureExpRulesAux (experiments_id_map : Dict OptimizelyExperiment) :
    List String → Dict OptimizelyExperiment → List OptimizelyExperiment →
    Except String (Dict OptimizelyExperiment × List OptimizelyExperiment)
  | [], em, rules => Except.ok (em, rules)
  | eid :: rest, em, rules =>
      match dictGet experiments_id_map eid with
      | none => Except.error "KeyError"
      | some o => featureExpRulesAux experiments_id_map rest (dictInsert em o.key o) (rules ++ [o])

/-- One iteration of the `_get_features_map` loop: delivery rules are built
only for a present, non-empty `rolloutId`, and `_get_delivery_rules` is
called with the service's global `audience_id_map`. -/
def buildOptlyFeature (svc : ServiceData)
    (experiments_id_map : Dict OptimizelyExperiment) (feature : FeatureFlagRec) :
    Except String OptimizelyFeature :=
  let deliveryStep : Except String (List OptimizelyExperiment) :=
    match feature.rolloutId with
    | some rid =>
        if rid ≠ "" then get_delivery_rules svc rid svc.roll_out_id_map svc.audience_id_map
        else Except.ok []
    | none => Except.ok []
  match deliveryStep with
  | Except.error e => Except.error e
  | Except.ok delivery_rules =>
      match featureExpRulesAux experiments_id_map feature.experimentIds [] [] with
      | Except.error e => Except.error e
      | Except.ok (exp_map, experiment_rules) =>
          match dictGet svc.feature_key_variable_key_to_variable_map feature.key with
          | none => Except.error "KeyError"
          | some variables_map =>
              Except.ok ⟨feature.id, feature.key, experiment_rules, delivery_rules,
                exp_map, variables_map⟩

/-- The loop of `_get_features_map`. -/
def featuresMapAux (svc : ServiceData) (experiments_id_map : Dict OptimizelyExperiment) :
    List FeatureFlagRec → Dict OptimizelyFeature → Except String (Dict OptimizelyFeature)
  | [], fm => Except.ok fm
  | f :: rest, fm =>
      match buildOptlyFeature svc experiments_id_map f with
      | Except.error e => Except.error e
      | Except.ok fv => featuresMapAux svc experiments_id_map rest (dictInsert fm f.key fv)

/-- `_get_features_map(experiments_id_map)`. -/
def get_features_map (svc : ServiceData) (experiments_id_map : Dict OptimizelyExperiment) :
    Except String (Dict OptimizelyFeature) :=
  featuresMapAux svc experiments_id_map svc.feature_flags []

/- ----------------------------------------------------------------
Audiences, events and the orchestrating service.
---------------------------------------------------------------- -/

/-- `_get_config_audiences()`: typed audiences with a truthy id first, then
legacy audiences whose id is not among those; the reserved id
`$opt_dummy_audience` is dropped in the final comprehension. -/
def get_config_audiences (svc : ServiceData) : List OptimizelyAudience :=
  let global_audiences := svc.typed_audiences.filter (fun a => a.id ≠ "")
  let filtered_audience := svc.audiences.filter
    (fun a => a.id ∉ global_audiences.map (fun t => t.id))
  let combined := global_audiences ++ filtered_audience
  (combined.filter (fun a => a.id ≠ "$opt_dummy_audience")).map
    (fun a => ⟨a.id, a.name, a.conditions⟩)

/-- `_get_config_events()`. -/
def get_config_events (svc : ServiceData) : List OptimizelyEvent :=
  svc.events.map (fun e => ⟨e.id, e.key, e.experimentIds⟩)

/-- The argument handed to `OptimizelyConfigService.__init__`: either a
genuine `ProjectConfig` or any other object (which fails the
`isinstance(project_config, ProjectConfig)` check). -/
inductive ServiceInput where
  | valid : ProjectConfig → ServiceInput
  | invalid : String → ServiceInput

/-- The `OptimizelyConfigService` object: the `is_valid` flag and, when the
input was a genuine `ProjectConfig`, the copied/derived state. -/
structure OptimizelyConfigService where
  is_valid : Bool
  data : Option ServiceData

/-- `OptimizelyConfigService.__init__`: a non-`ProjectConfig` input sets
`is_valid = False` and returns early without populating any state. -/
def OptimizelyConfigService.create : ServiceInput → OptimizelyConfigService
  | ServiceInput.valid pc => ⟨true, some (createServiceData pc)⟩
  | ServiceInput.invalid _ => ⟨false, none⟩

/-- `get_config()`: `None` when the service is invalid, otherwise the
assembled `OptimizelyConfig`; a `KeyError` raised during assembly
propagates as `.error`. -/
def OptimizelyConfigService.get_config (s : OptimizelyConfigService) :
    Except String (Option OptimizelyConfig) :=
  if s.is_valid = false then Except.ok none
  else
    match s.data with
    | none => Except.ok none
    | some svc =>
        match get_experiments_maps svc with
        | Except.error e => Except.error e
        | Except.ok (experiments_key_map, experiments_id_map) =>
            match get_features_map svc experiments_id_map with
            | Except.error e => Except.error e
            | Except.ok features_map =>
                Except.ok (some (OptimizelyConfig.create svc.revision
                  experiments_key_map features_map (some svc.datafile)
                  svc.sdk_key svc.environment_key
                  (some (svc.attributes.map (fun a => ⟨a.id, a.key⟩)))
                  (some (get_config_events svc))
                  (some (get_config_audiences svc))))

/- ----------------------------------------------------------------
Concrete instances used by counterexamples and witnesses.
---------------------------------------------------------------- -/

/-- An audience-id map resolving A, B, C to Name1, Name2, Name3. -/
def audienceMapABC : Dict AudienceRec :=
  [("A", ⟨"A", "Name1", ""⟩), ("B", ⟨"B", "Name2", ""⟩), ("C", ⟨"C", "Name3", ""⟩)]

/-- An audience-id map with the single entry a1 -> Name1. -/
def audienceMapA1 : Dict AudienceRec := [("a1", ⟨"a1", "Name1", ""⟩)]

/-- A feature declaring one variable (id 10, key vk) and owning
experiment e1. -/
def ffX : FeatureFlagRec :=
  { id := "f1", key := "fk", experimentIds := ["e1"], rolloutId := none,
    vars := [⟨"10", "vk", "string", "dv"⟩] }

/-- The experiment owned by `ffX`. -/
def expX : ExperimentRec :=
  { id := "e1", key := "ek", audienceConditions := none, variations := [] }

/-- A feature-enabled variation carrying an override whose variable id 99
matches no declaration on `ffX`. -/
def varBadOverride : VariationRec :=
  { id := "v1", key := "vkey", featureEnabled := some true, vars := [⟨"99", "xval"⟩] }

/-- A disabled variation carrying an override for the declared variable 10. -/
def varDisabled : VariationRec :=
  { id := "v2", key := "vkey2", featureEnabled := some false, vars := [⟨"10", "oval"⟩] }

/-- A variation with `featureEnabled` absent, also carrying an override. -/
def varUnsetEnabled : VariationRec :=
  { id := "v3", key := "vkey3", featureEnabled := none, vars := [⟨"10", "oval"⟩] }

/-- A project config containing `ffX` and `expX` only. -/
def pcX : ProjectConfig :=
  { datafile := "", experiments := [expX], feature_flags := [ffX], groups := [],
    revision := "1", sdk_key := none, environment_key := none, attributes := [],
    events := [], audiences := [], audience_id_map := [], rollout_id_map := [],
    typed_audiences := [] }

/-- The service state for `pcX`. -/
def svcX : ServiceData := createServiceData pcX

/-- Experiment e1/k1 with no variations or audience conditions. -/
def expPlainA : ExperimentRec :=
  { id := "e1", key := "k1", audienceConditions := none, variations := [] }

/-- Experiment e2/k2 with no variations or audience conditions. -/
def expPlainB : ExperimentRec :=
  { id := "e2", key := "k2", audienceConditions := none, variations := [] }

/-- A project config with one top-level experiment and one group
experiment, with pairwise distinct keys and ids. -/
def pcTwoExps : ProjectConfig :=
  { datafile := "", experiments := [expPlainA], feature_flags := [],
    groups := [⟨[expPlainB]⟩], revision := "1", sdk_key := none,
    environment_key := none, attributes := [], events := [], audiences := [],
    audience_id_map := [], rollout_id_map := [], typed_audiences := [] }

/-- The service state for `pcTwoExps`. -/
def svcTwoExps : ServiceData := createServiceData pcTwoExps

/-- A rollout experiment whose condition tree references audience id a1. -/
def expRollout : ExperimentRec :=
  { id := "re1", key := "rk1",
    audienceConditions := some (condList [CondItem.str "a1"]), variations := [] }

/-- A feature with no experiments and rollout id r1. -/
def ffRollout : FeatureFlagRec :=
  { id := "f2", key := "fk2", experimentIds := [], rolloutId := some "r1", vars := [] }

/-- A project config whose global audience-id map resolves a1 to
GlobalName, and whose rollout r1 contains `expRollout`. -/
def pcRollout : ProjectConfig :=
  { datafile := "", experiments := [], feature_flags := [ffRollout], groups := [],
    revision := "1", sdk_key := none, environment_key := none, attributes := [],
    events := [], audiences := [],
    audience_id_map := [("a1", ⟨"a1", "GlobalName", ""⟩)],
    rollout_id_map := [("r1", ⟨[expRollout]⟩)], typed_audiences := [] }

/-- The service state for `pcRollout`. -/
def svcRollout : ServiceData := createServiceData pcRollout

/-- A project config in which a typed audience and a legacy audience share
the empty id. -/
def pcEmptyIdAudiences : ProjectConfig :=
  { datafile := "", experiments := [], feature_flags := [], groups := [],
    revision := "1", sdk_key := none, environment_key := none, attributes := [],
    events := [], audiences := [⟨"", "LegacyName", "lc"⟩],
    audience_id_map := [], rollout_id_map := [],
    typed_audiences := [⟨"", "TypedName", "tc"⟩] }

/-- The service state for `pcEmptyIdAudiences`. -/
def svcEmptyIdAudiences : ServiceData := createServiceData pcEmptyIdAudiences

/-- A project config in which a typed audience and a legacy audience share
the non-empty id x, and a second legacy audience has a fresh id y. -/
def pcSharedIdAudiences : ProjectConfig :=
  { datafile := "", experiments := [], feature_flags := [], groups := [],
    revision := "1", sdk_key := none, environment_key := none, attributes := [],
    events := [], audiences := [⟨"x", "LName", "lc"⟩, ⟨"y", "LName2", "lc2"⟩],
    audience_id_map := [], rollout_id_map := [],
    typed_audiences := [⟨"x", "TName", "tc"⟩] }

/-- The service state for `pcSharedIdAudiences`. -/
def svcSharedIdAudiences : ServiceData := createServiceData pcSharedIdAudiences

/-- The delivery-rule view produced for `expRollout` in `svcRollout`. -/
def deliveryRuleView : OptimizelyExperiment :=
  { id := "re1", key := "rk1", audiences := "\"GlobalName\"", variations_map := [] }

/-- The feature view produced for `ffRollout` in `svcRollout`. -/
def featureRolloutView : OptimizelyFeature :=
  { id := "f2", key := "fk2", experimentRules := [], deliveryRules := [deliveryRuleView],
    experiments_map := [], variables_map := [] }

/- ----------------------------------------------------------------
Helper lemmas about the dict model.
---------------------------------------------------------------- -/

theorem dictGet_nil {α : Type} (k : String) : dictGet ([] : Dict α) k = none := rfl

theorem dictGet_insert_self {α : Type} (d : Dict α) (k : String) (v : α) :
    dictGet (dictInsert d k v) k = some v := by
  induction d with
  | nil => simp [dictInsert, dictGet]
  | cons p rest ih =>
      obtain ⟨k1, v1⟩ := p
      by_cases h : k1 = k
      · simp [dictInsert, h, dictGet]
      · simp [dictInsert, h, dictGet, ih]

theorem dictGet_insert_ne {α : Type} (d : Dict α) (k k1 : String) (v : α)
    (h : k1 ≠ k) : dictGet (dictInsert d k v) k1 = dictGet d k1 := by
  have hs : ¬k = k1 := fun hh => h hh.symm
  induction d with
  | nil => simp [dictInsert, dictGet, hs]
  | cons p rest ih =>
      obtain ⟨k2, v2⟩ := p
      by_cases h2 : k2 = k
      · subst h2
        simp [dictInsert, dictGet, hs]
      · simp only [dictInsert, if_neg h2, dictGet]
        by_cases h3 : k2 = k1
        · simp [h3]
        · simp [h3, ih]

theorem dictGet_eq_none_iff {α : Type} (d : Dict α) (k : String) :
    dictGet d k = none ↔ k ∉ dictKeys d := by
  induction d with
  | nil => simp [dictGet, dictKeys]
  | cons p rest ih =>
      obtain ⟨k1, v1⟩ := p
      by_cases h : k1 = k
      · simp [dictGet, dictKeys, h]
      · have hs : ¬k = k1 := fun hh => h hh.symm
        simp [dictGet, dictKeys, h, ih, hs]

theorem dictLength_insert_fresh {α : Type} (d : Dict α) (k : String) (v : α)
    (h : dictGet d k = none) : (dictInsert d k v).length = d.length + 1 := by
  induction d with
  | nil => simp [dictInsert]
  | cons p rest ih =>
      obtain ⟨k1, v1⟩ := p
      by_cases h1 : k1 = k
      · simp [dictGet, h1] at h
      · simp only [dictGet, if_neg h1] at h
        simp [dictInsert, h1, ih h]

/- ----------------------------------------------------------------
Claim theorems.
---------------------------------------------------------------- -/

/-- C10: the `OptimizelyConfig` constructor normalizes absent optional
fields: a `None` sdk key or environment key is stored as the empty string
and a `None` attributes/events/audiences collection is stored as the empty
list, so these fields (and their accessors) are never null. -/
theorem claim10_constructor_normalizes_none (revision : String)
    (em : Dict OptimizelyExperiment) (fm : Dict OptimizelyFeature)
    (df : Option String) :
    (OptimizelyConfig.create revision em fm df none none none none none).sdk_key = "" ∧
    (OptimizelyConfig.create revision em fm df none none none none none).environment_key = "" ∧
    (OptimizelyConfig.create revision em fm df none none none none none).attributes = [] ∧
    (OptimizelyConfig.create revision em fm df none none none none none).events = [] ∧
    (OptimizelyConfig.create revision em fm df none none none none none).audiences = [] :=
  ⟨rfl, rfl, rfl, rfl, rfl⟩

/-- C5: constructing the service from any input that is not a genuine
`ProjectConfig` marks it permanently invalid, and `get_config` then
returns `None` (`.ok none`: no exception is raised and no partial view is
produced); the service state is immutable, so every subsequent query
evaluates to the same `.ok none`. -/
theorem claim5_invalid_input_yields_none (s : String) :
    (OptimizelyConfigService.create (ServiceInput.invalid s)).is_valid = false ∧
    (OptimizelyConfigService.create (ServiceInput.invalid s)).get_config = Except.ok none :=
  ⟨rfl, rfl⟩

/-- C7: the tree `["and", ["or", "A", "B"], "C"]`, with A, B, C resolving
to Name1, Name2, Name3, renders exactly as
`("Name1" OR "Name2") AND "Name3"`: the nested sequence is parenthesized
and the pending AND operator prefixes the following operand. -/
theorem claim7_nested_tree_rendering :
    get_experiment_audiences
      (some (condList [CondItem.str "and",
        CondItem.seq (condList [CondItem.str "or", CondItem.str "A", CondItem.str "B"]),
        CondItem.str "C"])) audienceMapABC
      = "(\"Name1\" OR \"Name2\") AND \"Name3\"" := by decide

/-- C8: a scalar audience id with no entry in the audience-id map is
rendered as the literal id text in double quotes; the lookup miss does not
raise. -/
theorem claim8_unmatched_audience_id_falls_back (m : Dict AudienceRec) (s : String)
    (hmiss : dictGet m s = none)
    (hop : ¬(s = "and" ∨ s = "or" ∨ s = "not")) :
    get_experiment_audiences (some (condList [CondItem.str s])) m
      = "\"" ++ s ++ "\"" := by
  show renderItems m (CondList.cons (CondItem.str s) CondList.nil) "" "" = _
  simp [renderItems, hop, hmiss]

/-- Witness for C8 at the unmatched id 11111 against the empty map. -/
theorem claim8_witness :
    dictGet ([] : Dict AudienceRec) "11111" = none ∧
    get_experiment_audiences (some (condList [CondItem.str "11111"])) []
      = "\"11111\"" :=
  ⟨rfl, claim8_unmatched_audience_id_falls_back [] "11111" rfl (by decide)⟩

/-- C3 counterexample: the renderer is case-sensitive about operator
tokens.  In the tree `["NOT", "a1"]` (a1 resolving to Name1) the
upper-case element is treated as an audience id, producing
`"NOT" OR "Name1"` rather than the operator reading `NOT "Name1"`. -/
theorem claim3_counterexample :
    get_experiment_audiences (some (condList [CondItem.str "NOT", CondItem.str "a1"]))
        audienceMapA1 = "\"NOT\" OR \"Name1\"" ∧
    get_experiment_audiences (some (condList [CondItem.str "NOT", CondItem.str "a1"]))
        audienceMapA1 ≠ "NOT \"Name1\"" :=
  ⟨by decide, by decide⟩

theorem upperString_not : upperString "not" = "NOT" := rfl

/-- C3 amended: operator tokens are recognized case-sensitively.  The
lower-case element "not" is treated as an operator (yielding
`NOT "<name>"`), while the differently-cased element "Not" is treated as
an audience id: it is resolved (unsuccessfully) against the map and
rendered quoted, with the following operand chained by the implicit OR. -/
theorem claim3_amended_operators_case_sensitive (m : Dict AudienceRec) (a : String)
    (ar : AudienceRec) (hfound : dictGet m a = some ar)
    (hnotcap : dictGet m "Not" = none)
    (ha : ¬(a = "and" ∨ a = "or" ∨ a = "not")) :
    get_experiment_audiences (some (condList [CondItem.str "not", CondItem.str a])) m
      = "NOT \"" ++ ar.name ++ "\"" ∧
    get_experiment_audiences (some (condList [CondItem.str "Not", CondItem.str a])) m
      = "\"Not\" OR \"" ++ ar.name ++ "\"" := by
  constructor
  · show renderItems m (CondList.cons (CondItem.str "not")
      (CondList.cons (CondItem.str a) CondList.nil)) "" "" = _
    simp [renderItems, upperString_not, ha, hfound]
  · show renderItems m (CondList.cons (CondItem.str "Not")
      (CondList.cons (CondItem.str a) CondList.nil)) "" "" = _
    have h1 : "\"" ++ "Not" ++ "\"" ≠ "" := by decide
    simp [renderItems, ha, hfound, hnotcap, h1]
    rfl

/-- Witness for C3 amended, at the map a1 -> Name1. -/
theorem claim3_amended_witness :
    dictGet audienceMapA1 "a1" = some ⟨"a1", "Name1", ""⟩ ∧
    dictGet audienceMapA1 "Not" = none ∧
    get_experiment_audiences (some (condList [CondItem.str "not", CondItem.str "a1"]))
      audienceMapA1 = "NOT \"Name1\"" ∧
    get_experiment_audiences (some (condList [CondItem.str "Not", CondItem.str "a1"]))
      audienceMapA1 = "\"Not\" OR \"Name1\"" := by
  refine ⟨by decide, by decide, ?_⟩
  have h := claim3_amended_operators_case_sensitive audienceMapA1 "a1"
    ⟨"a1", "Name1", ""⟩ (by decide) (by decide) (by decide)
  exact h

/-- C6: for a variation whose `featureEnabled` is not `True` (false or
absent), `_get_variables_map` returns exactly the owning feature's default
variable registry, regardless of any stored overrides on the variation. -/
theorem claim6_disabled_variation_reports_defaults (svc : ServiceData)
    (exp : ExperimentRec) (v : VariationRec) (ff : FeatureFlagRec)
    (hff : dictGet svc.exp_id_to_feature_map exp.id = some ff)
    (hreg : dictGet svc.feature_key_variable_key_to_variable_map ff.key
      = some (buildVariablesKeyMap ff.vars))
    (hdis : v.featureEnabled ≠ some true) :
    get_variables_map svc exp v = Except.ok (buildVariablesKeyMap ff.vars) := by
  simp only [get_variables_map, hff, hreg]
  rw [if_neg hdis]

/-- Witness for C6: a disabled and an enabled-unset variation of `expX`,
both carrying a stored override for the declared variable, still resolve
to the default registry of `ffX`. -/
theorem claim6_witness :
    dictGet svcX.exp_id_to_feature_map expX.id = some ffX ∧
    get_variables_map svcX expX varDisabled
      = Except.ok (buildVariablesKeyMap ffX.vars) ∧
    get_variables_map svcX expX varUnsetEnabled
      = Except.ok (buildVariablesKeyMap ffX.vars) :=
  ⟨by decide,
   claim6_disabled_variation_reports_defaults svcX expX varDisabled ffX
     (by decide) (by decide) (by decide),
   claim6_disabled_variation_reports_defaults svcX expX varUnsetEnabled ffX
     (by decide) (by decide) (by decide)⟩

/-- C1 counterexample: for the feature-enabled variation
`varBadOverride`, whose override id 99 matches no variable declaration on
the owning feature `ffX`, `_get_variables_map` raises `KeyError`
(`feature_key_variable_id_to_variable_map[...][variable['id']]` uses
raising indexing); the override is not skipped and the resolver does not
return a map. -/
theorem claim1_counterexample :
    get_variables_map svcX expX varBadOverride = Except.error "KeyError" := rfl

theorem dictKeys_setValue (d : Dict OptimizelyVariable) (k v : String) :
    dictKeys (dictSetValue d k v) = dictKeys d := by
  induction d with
  | nil => rfl
  | cons p rest ih =>
      simp only [dictSetValue, List.map_cons, dictKeys] at ih ⊢
      by_cases h : p.1 = k
      · simp [h, ih]
      · simp [h, ih]

theorem applyOverridesAux_ok_keys (svc : ServiceData) (fk : String)
    (ovs : List VariableOverride) (vm vm1 : Dict OptimizelyVariable)
    (h : applyOverridesAux svc fk ovs vm = Except.ok vm1) :
    dictKeys vm1 = dictKeys vm := by
  induction ovs generalizing vm with
  | nil =>
      simp only [applyOverridesAux] at h
      cases h
      rfl
  | cons ov rest ih =>
      simp only [applyOverridesAux] at h
      cases h1 : dictGet svc.feature_key_variable_id_to_variable_map fk with
      | none => simp only [h1] at h; exact Except.noConfusion h
      | some idm =>
          simp only [h1] at h
          cases h2 : dictGet idm ov.id with
          | none => simp only [h2] at h; exact Except.noConfusion h
          | some fv =>
              simp only [h2] at h
              cases h3 : dictGet vm fv.key with
              | none => simp only [h3] at h; exact Except.noConfusion h
              | some w =>
                  simp only [h3] at h
                  rw [ih _ h, dictKeys_setValue]

theorem applyOverridesAux_missing_id (svc : ServiceData) (fk : String)
    (ovs : List VariableOverride) (vm idm : Dict OptimizelyVariable)
    (hidm : dictGet svc.feature_key_variable_id_to_variable_map fk = some idm)
    (hmiss : ∃ ov ∈ ovs, dictGet idm ov.id = none) :
    ∃ e, applyOverridesAux svc fk ovs vm = Except.error e := by
  induction ovs generalizing vm with
  | nil => simp at hmiss
  | cons ov rest ih =>
      simp only [applyOverridesAux, hidm]
      rcases hmiss with ⟨ov1, hmem, hnone⟩
      rcases List.mem_cons.mp hmem with h | hmem1
      · subst h
        simp only [hnone]
        exact ⟨"KeyError", rfl⟩
      · cases h2 : dictGet idm ov.id with
        | none => simp only [h2]; exact ⟨"KeyError", rfl⟩
        | some fv =>
            simp only [h2]
            cases h3 : dictGet vm fv.key with
            | none => simp only [h3]; exact ⟨"KeyError", rfl⟩
            | some w => simp only [h3]; exact ih _ ⟨ov1, hmem1, hnone⟩

/-- C1 corrected: when a feature-enabled variation carries an override
whose variable id has no matching declaration on the owning feature, the
resolver raises `KeyError` rather than skipping the entry; overrides never
introduce undeclared variables — every successfully returned map has
exactly the keys of the feature's declared default registry. -/
theorem claim1_amended_unmatched_override_raises (svc : ServiceData)
    (exp : ExperimentRec) (v : VariationRec) (ff : FeatureFlagRec)
    (reg idm : Dict OptimizelyVariable)
    (hff : dictGet svc.exp_id_to_feature_map exp.id = some ff)
    (hreg : dictGet svc.feature_key_variable_key_to_variable_map ff.key = some reg)
    (hidm : dictGet svc.feature_key_variable_id_to_variable_map ff.key = some idm)
    (hen : v.featureEnabled = some true) :
    ((∃ ov ∈ v.vars, dictGet idm ov.id = none) →
      ∃ e, get_variables_map svc exp v = Except.error e) ∧
    (∀ m1, get_variables_map svc exp v = Except.ok m1 →
      dictKeys m1 = dictKeys reg) := by
  have hgvm : get_variables_map svc exp v = applyOverridesAux svc ff.key v.vars reg := by
    simp only [get_variables_map, hff, hreg]
    rw [if_pos hen]
  constructor
  · intro hmiss
    rw [hgvm]
    exact applyOverridesAux_missing_id svc ff.key v.vars reg idm hidm hmiss
  · intro m1 hm1
    rw [hgvm] at hm1
    exact applyOverridesAux_ok_keys svc ff.key v.vars reg m1 hm1

/-- Witness for C1 amended, at `svcX` / `expX` / `varBadOverride` (whose
override id 99 has no declaration). -/
theorem claim1_amended_witness :
    dictGet svcX.exp_id_to_feature_map expX.id = some ffX ∧
    varBadOverride.featureEnabled = some true ∧
    (∃ e, get_variables_map svcX expX varBadOverride = Except.error e) :=
  ⟨by decide, by decide,
   (claim1_amended_unmatched_override_raises svcX expX varBadOverride ffX
      (buildVariablesKeyMap ffX.vars) (buildVariablesIdMap ffX.vars)
      (by decide) (by decide) (by decide) (by decide)).1
    ⟨⟨"99", "xval"⟩, by decide, by decide⟩⟩

theorem experimentsMapsAux_preserves (svc : ServiceData) (exps : List ExperimentRec)
    (km im km1 im1 : Dict OptimizelyExperiment)
    (h : experimentsMapsAux svc exps km im = Except.ok (km1, im1)) :
    (∀ k, k ∉ exps.map (fun e => e.key) → dictGet km1 k = dictGet km k) ∧
    (∀ i, i ∉ exps.map (fun e => e.id) → dictGet im1 i = dictGet im i) := by
  induction exps generalizing km im with
  | nil =>
      simp only [experimentsMapsAux, Except.ok.injEq, Prod.mk.injEq] at h
      obtain ⟨rfl, rfl⟩ := h
      exact ⟨fun _ _ => rfl, fun _ _ => rfl⟩
  | cons e0 rest ih =>
      simp only [experimentsMapsAux] at h
      cases hb : buildOptlyExperiment svc e0 with
      | error err => simp only [hb] at h; exact Except.noConfusion h
      | ok o =>
          simp only [hb] at h
          obtain ⟨ih1, ih2⟩ := ih _ _ h
          constructor
          · intro k hk
            simp only [List.map_cons, List.mem_cons, not_or] at hk
            rw [ih1 k hk.2, dictGet_insert_ne _ _ _ _ hk.1]
          · intro i hi
            simp only [List.map_cons, List.mem_cons, not_or] at hi
            rw [ih2 i hi.2, dictGet_insert_ne _ _ _ _ hi.1]

theorem experimentsMapsAux_mem (svc : ServiceData) (exps : List ExperimentRec)
    (km im km1 im1 : Dict OptimizelyExperiment)
    (h : experimentsMapsAux svc exps km im = Except.ok (km1, im1))
    (hk : (exps.map (fun e => e.key)).Nodup)
    (hi : (exps.map (fun e => e.id)).Nodup) :
    ∀ e ∈ exps, ∃ o, buildOptlyExperiment svc e = Except.ok o ∧
      dictGet km1 e.key = some o ∧ dictGet im1 e.id = some o := by
  induction exps generalizing km im with
  | nil => intro e he; simp at he
  | cons e0 rest ih =>
      simp only [experimentsMapsAux] at h
      cases hb : buildOptlyExperiment svc e0 with
      | error err => simp only [hb] at h; exact Except.noConfusion h
      | ok o =>
          simp only [hb] at h
          simp only [List.map_cons, List.nodup_cons] at hk hi
          intro e he
          rcases List.mem_cons.mp he with rfl | hmem
          · refine ⟨o, hb, ?_, ?_⟩
            · rw [(experimentsMapsAux_preserves svc rest _ _ _ _ h).1 e.key hk.1,
                dictGet_insert_self]
            · rw [(experimentsMapsAux_preserves svc rest _ _ _ _ h).2 e.id hi.1,
                dictGet_insert_self]
          · exact ih _ _ h hk.2 hi.2 e hmem

theorem experimentsMapsAux_length (svc : ServiceData) (exps : List ExperimentRec)
    (km im km1 im1 : Dict OptimizelyExperiment)
    (h : experimentsMapsAux svc exps km im = Except.ok (km1, im1))
    (hk : (exps.map (fun e => e.key)).Nodup)
    (hfk : ∀ e ∈ exps, dictGet km e.key = none)
    (hi : (exps.map (fun e => e.id)).Nodup)
    (hfi : ∀ e ∈ exps, dictGet im e.id = none) :
    km1.length = km.length + exps.length ∧
    im1.length = im.length + exps.length := by
  induction exps generalizing km im with
  | nil =>
      simp only [experimentsMapsAux, Except.ok.injEq, Prod.mk.injEq] at h
      obtain ⟨rfl, rfl⟩ := h
      simp
  | cons e0 rest ih =>
      simp only [experimentsMapsAux] at h
      cases hb : buildOptlyExperiment svc e0 with
      | error err => simp only [hb] at h; exact Except.noConfusion h
      | ok o =>
          simp only [hb] at h
          simp only [List.map_cons, List.nodup_cons] at hk hi
          have hfk1 : ∀ e ∈ rest, dictGet (dictInsert km e0.key o) e.key = none := by
            intro e he
            have hne : e.key ≠ e0.key := by
              intro hcontra
              exact hk.1 (hcontra ▸ List.mem_map_of_mem (fun x => x.key) he)
            rw [dictGet_insert_ne _ _ _ _ hne]
            exact hfk e (List.mem_cons_of_mem _ he)
          have hfi1 : ∀ e ∈ rest, dictGet (dictInsert im e0.id o) e.id = none := by
            intro e he
            have hne : e.id ≠ e0.id := by
              intro hcontra
              exact hi.1 (hcontra ▸ List.mem_map_of_mem (fun x => x.id) he)
            rw [dictGet_insert_ne _ _ _ _ hne]
            exact hfi e (List.mem_cons_of_mem _ he)
          obtain ⟨l1, l2⟩ := ih _ _ h hk.2 hfk1 hi.2 hfi1
          rw [l1, l2, dictLength_insert_fresh _ _ _ (hfk e0 (List.mem_cons_self _ _)),
            dictLength_insert_fresh _ _ _ (hfi e0 (List.mem_cons_self _ _))]
          simp only [List.length_cons]
          omega

/-- C4: when the single pass of `_get_experiments_maps` over all
experiments (own plus group experiments, with pairwise distinct keys and
pairwise distinct ids) succeeds, the key-indexed and id-indexed maps have
equal cardinality, and every experiment is mapped to the same
`OptimizelyExperiment` object in both maps. -/
theorem claim4_experiment_maps_consistent (svc : ServiceData)
    (km im : Dict OptimizelyExperiment)
    (hk : ((get_all_experiments svc).map (fun e => e.key)).Nodup)
    (hi : ((get_all_experiments svc).map (fun e => e.id)).Nodup)
    (h : get_experiments_maps svc = Except.ok (km, im)) :
    km.length = im.length ∧
    ∀ e ∈ get_all_experiments svc, ∃ o,
      dictGet km e.key = some o ∧ dictGet im e.id = some o := by
  constructor
  · obtain ⟨l1, l2⟩ := experimentsMapsAux_length svc (get_all_experiments svc)
      [] [] km im h hk (fun _ _ => rfl) hi (fun _ _ => rfl)
    rw [l1, l2]
  · intro e he
    obtain ⟨o, _, h1, h2⟩ := experimentsMapsAux_mem svc (get_all_experiments svc)
      [] [] km im h hk hi e he
    exact ⟨o, h1, h2⟩

/-- Witness for C4 at `svcTwoExps` (one top-level experiment, one group
experiment). -/
theorem claim4_witness :
    ((get_all_experiments svcTwoExps).map (fun e => e.key)).Nodup ∧
    ((get_all_experiments svcTwoExps).map (fun e => e.id)).Nodup ∧
    (([("k1", ⟨"e1", "k1", "", []⟩), ("k2", ⟨"e2", "k2", "", []⟩)] :
        Dict OptimizelyExperiment).length
      = ([("e1", ⟨"e1", "k1", "", []⟩), ("e2", ⟨"e2", "k2", "", []⟩)] :
        Dict OptimizelyExperiment).length ∧
     ∀ e ∈ get_all_experiments svcTwoExps, ∃ o,
       dictGet ([("k1", ⟨"e1", "k1", "", []⟩), ("k2", ⟨"e2", "k2", "", []⟩)] :
         Dict OptimizelyExperiment) e.key = some o ∧
       dictGet ([("e1", ⟨"e1", "k1", "", []⟩), ("e2", ⟨"e2", "k2", "", []⟩)] :
         Dict OptimizelyExperiment) e.id = some o) := by
  refine ⟨by decide, by decide, ?_⟩
  have h : get_experiments_maps svcTwoExps = Except.ok
      (([("k1", ⟨"e1", "k1", "", []⟩), ("k2", ⟨"e2", "k2", "", []⟩)] :
          Dict OptimizelyExperiment),
       ([("e1", ⟨"e1", "k1", "", []⟩), ("e2", ⟨"e2", "k2", "", []⟩)] :
          Dict OptimizelyExperiment)) := by rfl
  exact claim4_experiment_maps_consistent svcTwoExps _ _ (by decide) (by decide) h

/-- C2 counterexample: in `svcRollout`, audience a1 resolves to GlobalName
only through the service's global audience-id map (the rollout record
itself carries no audience table, so any rollout-local index is empty; the
second conjunct shows the empty index renders the raw id instead).  The
delivery rule built by `_get_features_map` shows `"GlobalName"`: the
rendering used the global index, not a rollout-local one. -/
theorem claim2_counterexample :
    get_features_map svcRollout [] = Except.ok [("fk2", featureRolloutView)] ∧
    deliveryRuleView.audiences = "\"GlobalName\"" ∧
    get_experiment_audiences (some (condList [CondItem.str "a1"])) [] = "\"a1\"" :=
  ⟨rfl, rfl, rfl⟩

theorem featuresMapAux_preserves (svc : ServiceData) (im : Dict OptimizelyExperiment)
    (fs : List FeatureFlagRec) (fm fm1 : Dict OptimizelyFeature)
    (h : featuresMapAux svc im fs fm = Except.ok fm1) :
    ∀ k, k ∉ fs.map (fun f => f.key) → dictGet fm1 k = dictGet fm k := by
  induction fs generalizing fm with
  | nil =>
      simp only [featuresMapAux, Except.ok.injEq] at h
      subst h
      exact fun _ _ => rfl
  | cons f0 rest ih =>
      simp only [featuresMapAux] at h
      cases hb : buildOptlyFeature svc im f0 with
      | error err => simp only [hb] at h; exact Except.noConfusion h
      | ok fv =>
          simp only [hb] at h
          intro k hk
          simp only [List.map_cons, List.mem_cons, not_or] at hk
          rw [ih _ h k hk.2, dictGet_insert_ne _ _ _ _ hk.1]

theorem featuresMapAux_mem (svc : ServiceData) (im : Dict OptimizelyExperiment)
    (fs : List FeatureFlagRec) (fm fm1 : Dict OptimizelyFeature)
    (h : featuresMapAux svc im fs fm = Except.ok fm1)
    (hnd : (fs.map (fun f => f.key)).Nodup) :
    ∀ f ∈ fs, ∃ fv, buildOptlyFeature svc im f = Except.ok fv ∧
      dictGet fm1 f.key = some fv := by
  induction fs generalizing fm with
  | nil => intro f hf; simp at hf
  | cons f0 rest ih =>
      simp only [featuresMapAux] at h
      cases hb : buildOptlyFeature svc im f0 with
      | error err => simp only [hb] at h; exact Except.noConfusion h
      | ok fv =>
          simp only [hb] at h
          simp only [List.map_cons, List.nodup_cons] at hnd
          intro f hf
          rcases List.mem_cons.mp hf with rfl | hmem
          · exact ⟨fv, hb, by
              rw [featuresMapAux_preserves svc im rest _ _ h f.key hnd.1,
                dictGet_insert_self]⟩
          · exact ih _ h hnd.2 f hmem

theorem buildOptlyFeature_delivery (svc : ServiceData) (im : Dict OptimizelyExperiment)
    (f : FeatureFlagRec) (fv : OptimizelyFeature) (rid : String)
    (hb : buildOptlyFeature svc im f = Except.ok fv)
    (hr : f.rolloutId = some rid) (hne : rid ≠ "") :
    get_delivery_rules svc rid svc.roll_out_id_map svc.audience_id_map
      = Except.ok fv.deliveryRules := by
  simp only [buildOptlyFeature, hr] at hb
  rw [if_pos hne] at hb
  cases hd : get_delivery_rules svc rid svc.roll_out_id_map svc.audience_id_map with
  | error err => simp only [hd] at hb; exact Except.noConfusion hb
  | ok dr =>
      simp only [hd] at hb
      cases he : featureExpRulesAux im f.experimentIds [] [] with
      | error err => simp only [he] at hb; exact Except.noConfusion hb
      | ok p =>
          obtain ⟨em, rules⟩ := p
          simp only [he] at hb
          cases hv : dictGet svc.feature_key_variable_key_to_variable_map f.key with
          | none => simp only [hv] at hb; exact Except.noConfusion hb
          | some vm =>
              simp only [hv] at hb
              cases hb
              rfl

/-- C2 corrected: for every feature with a present, non-empty rollout id,
the delivery rules stored on its `OptimizelyFeature` view are exactly the
result of `_get_delivery_rules` rendered against the service's *global*
`audience_id_map` (the code passes `self.audience_id_map`; no
rollout-local audience index exists). -/
theorem claim2_amended_delivery_rules_use_global_index (svc : ServiceData)
    (im : Dict OptimizelyExperiment) (fm : Dict OptimizelyFeature)
    (f : FeatureFlagRec) (rid : String)
    (h : get_features_map svc im = Except.ok fm)
    (hf : f ∈ svc.feature_flags)
    (hnd : (svc.feature_flags.map (fun x => x.key)).Nodup)
    (hr : f.rolloutId = some rid) (hne : rid ≠ "") :
    ∃ fv, dictGet fm f.key = some fv ∧
      get_delivery_rules svc rid svc.roll_out_id_map svc.audience_id_map
        = Except.ok fv.deliveryRules := by
  obtain ⟨fv, hb, hl⟩ := featuresMapAux_mem svc im svc.feature_flags [] fm h hnd f hf
  exact ⟨fv, hl, buildOptlyFeature_delivery svc im f fv rid hb hr hne⟩

/-- Witness for C2 amended at `svcRollout`. -/
theorem claim2_amended_witness :
    ffRollout ∈ svcRollout.feature_flags ∧
    ffRollout.rolloutId = some "r1" ∧
    (∃ fv, dictGet ([("fk2", featureRolloutView)] : Dict OptimizelyFeature)
        ffRollout.key = some fv ∧
      get_delivery_rules svcRollout "r1" svcRollout.roll_out_id_map
        svcRollout.audience_id_map = Except.ok fv.deliveryRules) := by
  refine ⟨by decide, by decide, ?_⟩
  have h : get_features_map svcRollout []
      = Except.ok ([("fk2", featureRolloutView)] : Dict OptimizelyFeature) := rfl
  exact claim2_amended_delivery_rules_use_global_index svcRollout []
    _ ffRollout "r1" h (by decide) (by decide) (by decide) (by decide)

/-- C9 counterexample: in `svcEmptyIdAudiences` a typed audience and a
legacy audience share the (empty) id; the typed record is dropped by the
truthy-id filter, so the pair does not collapse to the typed record — the
surviving view is the legacy one. -/
theorem claim9_counterexample :
    get_config_audiences svcEmptyIdAudiences
      = [{ id := "", name := "LegacyName", conditions := "lc" }] ∧
    get_config_audiences svcEmptyIdAudiences
      ≠ [{ id := "", name := "TypedName", conditions := "tc" }] :=
  ⟨rfl, by decide⟩

/-- C9 corrected: the output audience list never contains the reserved
placeholder id; it is composed of the typed records (truthy id, not the
placeholder) first, then the legacy records whose id is not among those
typed ids; and a typed/legacy pair sharing a *non-empty*, non-placeholder
id (with that typed record unique) collapses to the single view built
from the typed record. -/
theorem claim9_amended_audience_dedup (svc : ServiceData) :
    (∀ v ∈ get_config_audiences svc, v.id ≠ "$opt_dummy_audience") ∧
    (get_config_audiences svc
      = ((svc.typed_audiences.filter (fun a => a.id ≠ "")).filter
          (fun a => a.id ≠ "$opt_dummy_audience")).map
          (fun a => (⟨a.id, a.name, a.conditions⟩ : OptimizelyAudience))
        ++ ((svc.audiences.filter (fun a =>
              a.id ∉ (svc.typed_audiences.filter (fun t => t.id ≠ "")).map
                (fun t => t.id))).filter
          (fun a => a.id ≠ "$opt_dummy_audience")).map
          (fun a => (⟨a.id, a.name, a.conditions⟩ : OptimizelyAudience))) ∧
    (∀ i t, i ≠ "" → i ≠ "$opt_dummy_audience" →
      svc.typed_audiences.filter (fun a => a.id = i) = [t] →
      (get_config_audiences svc).filter (fun v => v.id = i)
        = [(⟨t.id, t.name, t.conditions⟩ : OptimizelyAudience)]) := by
  refine ⟨?_, ?_, ?_⟩
  · intro v hv
    simp only [get_config_audiences, List.mem_map, List.mem_filter] at hv
    obtain ⟨a, ⟨ha, hp⟩, rfl⟩ := hv
    simpa using hp
  · simp only [get_config_audiences, List.filter_append, List.map_append]
  · intro i t hne hnd hft
    have htmem : t ∈ svc.typed_audiences.filter (fun a => a.id = i) := by
      rw [hft]; exact List.mem_singleton.mpr rfl
    have hti : t.id = i := by simpa using (List.mem_filter.mp htmem).2
    have htT : t ∈ svc.typed_audiences := (List.mem_filter.mp htmem).1
    have hq : ∀ (l : List AudienceRec),
        List.filter (fun v => v.id = i)
          (List.map (fun a => (⟨a.id, a.name, a.conditions⟩ : OptimizelyAudience)) l)
        = List.map (fun a => (⟨a.id, a.name, a.conditions⟩ : OptimizelyAudience))
            (List.filter (fun a => a.id = i) l) := by
      intro l
      rw [List.filter_map]
      rfl
    simp only [get_config_audiences]
    rw [hq, List.filter_filter, List.filter_append]
    have h4 : List.filter
        (fun a => decide (a.id = i) && decide (a.id ≠ "$opt_dummy_audience"))
        (List.filter (fun a => a.id ≠ "") svc.typed_audiences) = [t] := by
      rw [List.filter_filter, ← hft]
      apply List.filter_congr
      intro x _
      by_cases hx : x.id = i
      · simp [hx, hne, hnd]
      · simp [hx]
    have h5 : List.filter
        (fun a => decide (a.id = i) && decide (a.id ≠ "$opt_dummy_audience"))
        (List.filter (fun a =>
          a.id ∉ (List.filter (fun t1 => t1.id ≠ "") svc.typed_audiences).map
            (fun t1 => t1.id)) svc.audiences) = [] := by
      rw [List.filter_filter, List.filter_eq_nil_iff]
      intro a _
      by_cases hx : a.id = i
      · have hmemids : a.id ∈ (List.filter (fun t1 => t1.id ≠ "")
            svc.typed_audiences).map (fun t1 => t1.id) := by
          rw [hx, ← hti]
          exact List.mem_map_of_mem _ (List.mem_filter.mpr ⟨htT, by simp [hti, hne]⟩)
        intro hb
        simp only [Bool.and_eq_true, decide_eq_true_eq] at hb
        exact hb.2 hmemids
      · simp [hx]
    rw [h4, h5]
    simp

/-- Witness for C9 amended at `svcSharedIdAudiences` (typed x shadows
legacy x; legacy y survives). -/
theorem claim9_amended_witness :
    (svcSharedIdAudiences.typed_audiences.filter (fun a => a.id = "x")
      = [(⟨"x", "TName", "tc"⟩ : AudienceRec)]) ∧
    (get_config_audiences svcSharedIdAudiences).filter (fun v => v.id = "x")
      = [(⟨"x", "TName", "tc"⟩ : OptimizelyAudience)] := by
  refine ⟨by decide, ?_⟩
  exact (claim9_amended_audience_dedup svcSharedIdAudiences).2.2 "x"
    (⟨"x", "TName", "tc"⟩ : AudienceRec) (by decide) (by decide) (by decide)
